import Mathlib

/-!
Verification development for the chimedb_node hardware tracker.

Strings of the source are modelled as lists of characters (`Str`); the
peewee-backed entity store is modelled as an explicit `Store` record holding
the component, node, MAC and history tables; a `save()` call is modelled as
replacing the row with the matching primary key.  Fallible operations return
`Except`; a `click` usage failure (`ctx.fail`) and an uncaught Python
exception are kept apart where a claim depends on the difference.
-/

abbrev Str := List Char

/-! ## util.valid_rack_slot (src/chimedb/node/util.py lines 87-148) -/

/-- Source: `hut not in "fns"` (util.py line 127). -/
def hutChars : Str := ['f', 'n', 's']

/-- Source: `slot not in "0123456789"` (util.py line 139). -/
def slotChars : Str := ['0', '1', '2', '3', '4', '5', '6', '7', '8', '9']

/-- Source: `rack not in "0123456789abcde"` (util.py line 131): the ten
decimal digits followed by the hex digits a-e. -/
def rackChars : Str := slotChars ++ ['a', 'b', 'c', 'd', 'e']

/-- The separator test of util.py lines 134-136: the check passes when
`hut == 'f'` forces the separator to be `'n'` and any other hut forces `'g'`. -/
def sep_ok (hut sep : Char) : Prop := if hut = 'f' then sep = 'n' else sep = 'g'

instance (hut sep : Char) : Decidable (sep_ok hut sep) := by
  unfold sep_ok; exact inferInstance

/-- The separator character of the canonical form (util.py line 148):
`("n" if hut == "f" else "g")`. -/
def sep_char (hut : Char) : Char := if hut = 'f' then 'n' else 'g'

/-- The body of `valid_rack_slot` applied to the lowercased name with the
optional leading `c` already stripped.  The source's length check
(`len(slot_name) != 4 + offset`, line 123) is the arity of this match; the
index reads `slot_name[offset] .. slot_name[offset+3]` are the four pattern
variables; `none` is the `RackSlotError` path. -/
def rack_slot_core : Str → Option Str
  | [hut, rack, sep, slot] =>
    if hut ∈ hutChars then
      if rack ∈ rackChars then
        if sep_ok hut sep then
          if slot ∈ slotChars then
            some ['c', hut, rack.toUpper, sep_char hut, slot]
          else none
        else none
      else none
    else none
  | _ => none

/-- util.py `valid_rack_slot` on a non-None string: the input is lowercased
(line 115); `offset` is 1 exactly when the first character is `'c'`
(line 118), and the empty string raises (IndexError, lines 119-121).
`none` models the `ValueError`/`ctx.fail` error path. -/
def valid_rack_slot (slot_name : Str) : Option Str :=
  match slot_name.map Char.toLower with
  | [] => none
  | 'c' :: rest => rack_slot_core rest
  | s => rack_slot_core s

/-- How a `valid_rack_slot` call ends at the Python interface: a returned
value, a `ctx.fail` (from_cli=True) or a raised `ValueError` (from_cli=False). -/
inductive RackSlotOutcome
  | ok (r : Option Str)
  | cliFail
  | valueError
deriving DecidableEq

/-- util.py `valid_rack_slot` with its full signature: a `None` input returns
`None` before any validation (lines 108-109); a syntax error becomes
`ctx.fail` when `from_cli` and `ValueError` otherwise (lines 141-146). -/
def valid_rack_slot_full (slot_name : Option Str) (from_cli : Bool) : RackSlotOutcome :=
  match slot_name with
  | none => .ok none
  | some s =>
    match valid_rack_slot s with
    | some r => .ok (some r)
    | none => if from_cli then .cliFail else .valueError

/-! ## Entity store (src/chimedb/node/orm.py)

Each peewee model is a record; the table is a list of rows; `Model.save()`
is modelled by replacing the row with the matching primary key.  The slot
fields `motherboard`, `cpu0`, `cpu1`, `gpu0`, `gpu1`, `nic`, the `frb` flag
and the `rack_slot` field are the ones `NodeAssembled.components`,
`NodeAssembled.empty`, `NodeComponent.uninstall`, `client.create_node` and
the test suite read and write (the class body of `NodeAssembled` in orm.py
omits them; spec section 9 records the divergent schema definitions). -/

structure NodeComponent where
  id : Nat
  type : Str
  model : Option Str
  serial : Option Str
  status : Str
  location : Option Str
deriving DecidableEq

structure NodeMAC where
  value : Nat
  component : Nat
  mac_type : Str
deriving DecidableEq

inductive SlotField
  | motherboard
  | cpu0
  | cpu1
  | gpu0
  | gpu1
  | nic
deriving DecidableEq

structure NodeAssembled where
  id : Nat
  frb : Bool
  serial : Str
  rack_slot : Option Str
  location : Option Str
  motherboard : Option Nat
  cpu0 : Option Nat
  cpu1 : Option Nat
  gpu0 : Option Nat
  gpu1 : Option Nat
  nic : Option Nat
  gone : Bool
deriving DecidableEq

structure NodeHistory where
  operation : Str
  node : Option Nat
  component : Option Nat
  rma : Option Nat
  author : Str
  autonote : Bool
  note : Str
deriving DecidableEq

structure Store where
  components : List NodeComponent
  nodes : List NodeAssembled
  macs : List NodeMAC
  history : List NodeHistory
deriving DecidableEq

def getSlot (n : NodeAssembled) : SlotField → Option Nat
  | .motherboard => n.motherboard
  | .cpu0 => n.cpu0
  | .cpu1 => n.cpu1
  | .gpu0 => n.gpu0
  | .gpu1 => n.gpu1
  | .nic => n.nic

def setSlot (n : NodeAssembled) : SlotField → Option Nat → NodeAssembled
  | .motherboard, v => { n with motherboard := v }
  | .cpu0, v => { n with cpu0 := v }
  | .cpu1, v => { n with cpu1 := v }
  | .gpu0, v => { n with gpu0 := v }
  | .gpu1, v => { n with gpu1 := v }
  | .nic, v => { n with nic := v }

/-- The slot fields in the order `NodeAssembled.empty` iterates them
(orm.py line 219). -/
def slotFields : List SlotField := [.motherboard, .cpu0, .cpu1, .gpu0, .gpu1, .nic]

def lookupComponent : List NodeComponent → Nat → Option NodeComponent
  | [], _ => none
  | c :: rest, cid => if c.id = cid then some c else lookupComponent rest cid

def lookupNode : List NodeAssembled → Nat → Option NodeAssembled
  | [], _ => none
  | n :: rest, nid => if n.id = nid then some n else lookupNode rest nid

/-- `Model.get` by primary key. -/
def getComponent (st : Store) (cid : Nat) : Option NodeComponent :=
  lookupComponent st.components cid

def getNode (st : Store) (nid : Nat) : Option NodeAssembled :=
  lookupNode st.nodes nid

/-- `row.save()`: the row with this primary key takes the new value. -/
def saveComponent (st : Store) (c : NodeComponent) : Store :=
  { st with components := st.components.map (fun x => if x.id = c.id then c else x) }

def saveNode (st : Store) (n : NodeAssembled) : Store :=
  { st with nodes := st.nodes.map (fun x => if x.id = n.id then n else x) }

/-- Python truthiness of an optional string (`if note:`): None and the empty
string are falsy. -/
def truthy : Option Str → Bool
  | none => false
  | some s => !s.isEmpty

/-! ## History logger (src/chimedb/node/history.py)

`get_author()` is an external collaborator (process user and host name, or
the value set by `--user`); its result is threaded in as the `author`
argument.  `hist.save()` (history.py line 39) appends the new row. -/

def new_history (st : Store) (op : Str) (node component rma : Option Nat)
    (note : Str) (autonote : Bool) (author : Str) : Store :=
  { st with history := st.history ++ [⟨op, node, component, rma, author, autonote, note⟩] }

/-- history.py `add` (lines 42-56): when the caller's note is falsy, the note
is synthesized from which references are present and `autonote` is set. -/
def history_add (st : Store) (author : Str) (node component rma : Option Nat)
    (note : Option Str) : Store :=
  if truthy note then
    new_history st ("ADD".toList) node component rma (note.getD []) false author
  else
    let n : Str :=
      if node = none then "Created component.".toList
      else if component = none then "Created node.".toList
      else "Added component to node.".toList
    new_history st ("ADD".toList) node component rma n true author

/-- history.py `del_` (lines 59-73). -/
def history_del (st : Store) (author : Str) (node component rma : Option Nat)
    (note : Option Str) : Store :=
  if truthy note then
    new_history st ("DEL".toList) node component rma (note.getD []) false author
  else
    let n : Str :=
      if node = none then "Retired component.".toList
      else if component = none then "Retired node.".toList
      else "Removed component from node.".toList
    new_history st ("DEL".toList) node component rma n true author

/-! ## MAC address conversion (src/chimedb/node/client.py lines 36-104) -/

/-- How `macaddr.convert` ends: a value, `self.fail` (a click usage error),
or an exception the function does not catch (`IndexError` from an
out-of-range `value[i]`, or `ValueError` from `int(value, 16)` — the
source's `except TypeError` never fires for a string input). -/
inductive MacOutcome
  | ok (n : Nat)
  | fail
  | exn
deriving DecidableEq

/-- `value[i] == separator`: `none` is an IndexError. -/
def sepAt (v : Str) (i : Nat) (sep : Char) : Option Bool :=
  match v.get? i with
  | some c => some (c = sep)
  | none => none

def allSepAt (v : Str) (sep : Char) : List Nat → Option Bool
  | [] => some true
  | i :: rest =>
    match sepAt v i sep with
    | some true => allSepAt v sep rest
    | some false => some false
    | none => none

/-- One `value.count(separator) == cnt and value[i1] == separator and ...`
condition, with Python's left-to-right short-circuit evaluation. -/
def groupCheck (v : Str) (sep : Char) (cnt : Nat) (idxs : List Nat) : Option Bool :=
  if v.count sep = cnt then allSepAt v sep idxs else some false

def hexVal (c : Char) : Option Nat :=
  if '0' ≤ c ∧ c ≤ '9' then some (c.toNat - '0'.toNat)
  else if 'a' ≤ c ∧ c ≤ 'f' then some (c.toNat - 'a'.toNat + 10)
  else if 'A' ≤ c ∧ c ≤ 'F' then some (c.toNat - 'A'.toNat + 10)
  else none

/-- `int(value, 16)` on a string of plain hexadecimal digits; any other
character raises ValueError (the exotic literal forms `int` also accepts,
such as a sign prefix, never arise from the grouped-MAC grammar). -/
def hexParse (acc : Nat) : Str → Option Nat
  | [] => some acc
  | c :: rest =>
    match hexVal c with
    | some d => hexParse (16 * acc + d) rest
    | none => none

/-- The tail of `macaddr.convert`: the length check (line 88) and
`int(value, 16)` (line 98); the ValueError of a bad literal is not caught
(`except TypeError`, line 99). -/
def macaddr_finish (v : Str) : MacOutcome :=
  if v.length ≠ 12 then .fail
  else
    match hexParse 0 v with
    | some n => .ok n
    | none => .exn

/-- client.py `macaddr.convert` on a string input (the None and
already-an-int branches, lines 37-42, return the input unchanged).
`value.replace(separator, "")` is the filter dropping the separator. -/
def macaddr_convert (value : Str) : MacOutcome :=
  let separator : Option Char :=
    if ':' ∈ value then some ':'
    else if '-' ∈ value then some '-'
    else if '.' ∈ value then some '.'
    else none
  match separator with
  | none => macaddr_finish value
  | some sep =>
    match groupCheck value sep 5 [2, 5, 8, 11, 14] with
    | none => .exn
    | some true => macaddr_finish (value.filter (fun c => c != sep))
    | some false =>
      match groupCheck value sep 3 [3, 7, 11] with
      | none => .exn
      | some true => macaddr_finish (value.filter (fun c => c != sep))
      | some false =>
        match groupCheck value sep 2 [4, 9] with
        | none => .exn
        | some true => macaddr_finish (value.filter (fun c => c != sep))
        | some false =>
          match groupCheck value sep 1 [7] with
          | none => .exn
          | some true => macaddr_finish (value.filter (fun c => c != sep))
          | some false => .fail

/-! ## Identifier resolution (src/chimedb/node/util.py lines 8-84) -/

/-- How a resolver call ends: a returned reference (possibly None),
`ctx.fail(msg)`, or an exception that propagates (`peewee.DoesNotExist`
re-raised, or a ValueError from `int`, which the except clauses do not
catch). -/
inductive ResolveResult
  | ok (r : Option Nat)
  | cliFail (msg : Str)
  | exn
deriving DecidableEq

def decVal (c : Char) : Option Nat :=
  if '0' ≤ c ∧ c ≤ '9' then some (c.toNat - '0'.toNat) else none

def decParse (acc : Nat) : Str → Option Nat
  | [] => some acc
  | c :: rest =>
    match decVal c with
    | some d => decParse (10 * acc + d) rest
    | none => none

/-- `int(s, 10)` for the digit strings record numbers carry; the empty
string and non-digit text raise ValueError (`none`). -/
def decParseAll (s : Str) : Option Nat :=
  if s.isEmpty then none else decParse 0 s

/-- util.py `node_from_userid` (lines 8-43).  A token starting `N#` is
parsed as a record number: a bad number raises (`int` raises ValueError and
only TypeError is caught), a missing record is `ctx.fail` from the CLI and a
re-raised `DoesNotExist` otherwise.  A serial miss is `ctx.fail` from the
CLI but returns None otherwise (line 43). -/
def node_from_userid (st : Store) (id_ : Option Str) (from_cli : Bool) : ResolveResult :=
  match id_ with
  | none => .ok none
  | some s =>
    if ("N#".toList).isPrefixOf s then
      match decParseAll (s.drop 2) with
      | none => .exn
      | some n =>
        match getNode st n with
        | some node => .ok (some node.id)
        | none => if from_cli then .cliFail ("NODE not found.".toList) else .exn
    else
      match st.nodes.find? (fun n => n.serial == s) with
      | some node => .ok (some node.id)
      | none => if from_cli then .cliFail ("NODE not found.".toList) else .ok none

/-- util.py `component_from_userid` (lines 46-84).  The `C#` branch compares
the integer id column against the whole token (`NodeComponent.id == id_`,
line 59): converting the token to an integer raises ValueError, which the
except clauses do not catch, so the branch always raises.  The serial
lookup is the evident component-serial match with the `type != "slot"`
filter (the source text names `NodeAssembled.serial` here, one of the
divergent schema references spec section 9 records); a miss is `ctx.fail`
from the CLI and a re-raised `DoesNotExist` otherwise (line 84). -/
def component_from_userid (st : Store) (id_ : Option Str) (from_cli : Bool) : ResolveResult :=
  match id_ with
  | none => .ok none
  | some s =>
    if ("C#".toList).isPrefixOf s then .exn
    else
      match st.components.find? (fun c => c.serial == some s && c.type != ("slot".toList)) with
      | some c => .ok (some c.id)
      | none => if from_cli then .cliFail ("COMPONENT not found.".toList) else .exn

/-! ## Lifecycle operations (src/chimedb/node/client.py, orm.py) -/

/-- How an operation fails: `ctx.fail`/`click.fail` (the source writes
`click.fail`, which does not exist — read as the evident `ctx.fail`), an
IntegrityError raised by `save()` at the storage boundary, the ValueError
`NodeComponent.uninstall` raises, the echo-help-and-exit path for a missing
argument, and an exception the source does not handle. -/
inductive OpError
  | conflict (msg : Str)
  | integrity
  | notInstalled (msg : Str)
  | helpExit
  | exn
deriving DecidableEq

/-- client.py `_MAC_TYPE` (line 14) for the non-negative keys; `none` is the
KeyError of a position past NIC3. -/
def _MAC_TYPE : Nat → Option Str
  | 0 => some ("NIC0".toList)
  | 1 => some ("NIC1".toList)
  | 2 => some ("NIC2".toList)
  | 3 => some ("NIC3".toList)
  | _ => none

/-- client.py `_new_mac` (lines 330-338) for a NIC position, read as the
evident intent: the body assigns `mac.value = addr` where the parameter is
named `value`, and `mac.type` where the field is `mac_type`. -/
def _new_mac (comp : Nat) (value : Nat) (num : Nat) : Option NodeMAC :=
  (_MAC_TYPE num).map (fun t => ⟨value, comp, t⟩)

/-- `_new_mac(component, ipmi, -1)`: the `-1` key of `_MAC_TYPE` is IPMI. -/
def _new_mac_ipmi (comp : Nat) (value : Nat) : NodeMAC :=
  ⟨value, comp, "IPMI".toList⟩

/-- client.py `create_component` (lines 341-367): missing serial echoes help
and exits; the component row is inserted with `type_.upper()` and status
"OK"; one MAC row per supplied address with the role given by its position,
then the IPMI address; finally `history.add(component=component, note=note)`. -/
def create_component (st : Store) (author : Str) (type_ : Str) (serial : Option Str)
    (location : Option Str) (note : Option Str) (model : Option Str)
    (ipmi : Option Nat) (macs : List Nat) : Except OpError Store :=
  match serial with
  | none => .error .helpExit
  | some serial =>
    let cid := st.components.length + 1
    let comp : NodeComponent :=
      ⟨cid, type_.map Char.toUpper, model, some serial, "OK".toList, location⟩
    match (macs.enum).mapM (fun p => _new_mac cid p.2 p.1) with
    | none => .error .exn
    | some newMacs =>
      let ipmiMacs : List NodeMAC :=
        match ipmi with
        | some a => [_new_mac_ipmi cid a]
        | none => []
      let st1 : Store :=
        { st with
          components := st.components ++ [comp]
          macs := st.macs ++ newMacs ++ ipmiMacs }
      .ok (history_add st1 author none (some cid) none note)

/-- client.py `create_nic` (lines 452-460): the handler passes the literal
type "mb" to `create_component` (line 460).  The single `--mac` value is
read as the evident one-element list (the source iterates the raw option
value, which raises TypeError; cf. the C5 divergence). -/
def create_nic (st : Store) (author : Str) (serial : Option Str) (location : Option Str)
    (note : Option Str) (model : Option Str) (mac : Option Nat) : Except OpError Store :=
  create_component st author ("mb".toList) serial location note model none
    (match mac with
     | some a => [a]
     | none => [])

/-- client.py `create_node` (lines 392-415): missing serial echoes help;
giving both `--location` and `--slot` fails; the rack slot is canonicalized
with `from_cli=True`; `node.save()` raises IntegrityError when the unique
serial already exists; then `history.add(node=node, note=note)`. -/
def create_node (st : Store) (author : Str) (serial : Option Str) (frb : Bool)
    (location : Option Str) (note : Option Str) (slot : Option Str) :
    Except OpError Store :=
  match serial with
  | none => .error .helpExit
  | some serial =>
    if truthy location && truthy slot then
      .error (.conflict ("Cannot specify both --location and --slot".toList))
    else
      match valid_rack_slot_full slot true with
      | .cliFail => .error (.conflict ("Invalid rack slot designation.".toList))
      | .valueError => .error .exn
      | .ok rs =>
        if st.nodes.any (fun n => n.serial == serial) then .error .integrity
        else
          let nid := st.nodes.length + 1
          let node : NodeAssembled :=
            ⟨nid, frb, serial, rs, location, none, none, none, none, none, none, false⟩
          let st1 : Store := { st with nodes := st.nodes ++ [node] }
          .ok (history_add st1 author (some nid) none none note)

def findNodeWith (st : Store) (f : NodeAssembled → Option Nat) (cid : Nat) :
    Option NodeAssembled :=
  st.nodes.find? (fun n => f n == some cid)

/-- The owning-node search of `NodeComponent.uninstall` (orm.py lines
52-73): only the slot kinds legal for the component's type are scanned, the
first CPU/GPU slot before the second. -/
def locateSlot (st : Store) (self : NodeComponent) :
    Option (NodeAssembled × SlotField) :=
  if self.type = "MB".toList then
    (findNodeWith st (fun n => n.motherboard) self.id).map (fun n => (n, .motherboard))
  else if self.type = "CPU".toList then
    match findNodeWith st (fun n => n.cpu0) self.id with
    | some n => some (n, .cpu0)
    | none => (findNodeWith st (fun n => n.cpu1) self.id).map (fun n => (n, .cpu1))
  else if self.type = "GPU".toList then
    match findNodeWith st (fun n => n.gpu0) self.id with
    | some n => some (n, .gpu0)
    | none => (findNodeWith st (fun n => n.gpu1) self.id).map (fun n => (n, .gpu1))
  else if self.type = "NIC".toList then
    (findNodeWith st (fun n => n.nic) self.id).map (fun n => (n, .nic))
  else none

/-- orm.py `NodeComponent.uninstall` (lines 46-85), read as the evident
bound method (as written the def lacks `self` and references the undefined
names `DoesNotExist`, `component` and `history`, so every call raises; cf.
the C6 divergence).  The statement order of the source is kept exactly:
`node.save()` runs BEFORE `setattr(node, field, None)` and no save follows,
so the cleared slot never reaches the store; the location update is guarded
by `if location:` and so skipped for a falsy new location. -/
def uninstall (st : Store) (author : Str) (self : NodeComponent)
    (location : Option Str) (note : Option Str) : Except OpError Store :=
  match locateSlot st self with
  | none => .error (.notInstalled ("component not installed in node.".toList))
  | some (node, field) =>
    let st1 := saveNode st node
    let node1 := setSlot node field none
    let st2 :=
      if truthy location then saveComponent st1 { self with location := location }
      else st1
    .ok (history_del st2 author (some node1.id) (some self.id) none note)

/-- One iteration of the loop of `NodeAssembled.empty` (orm.py lines
219-225): an occupied slot is cleared on the in-memory node, the component's
location is set (unconditionally) and saved, and one DEL history row is
written.  A slot reference that resolves to no component row is skipped. -/
def empty_step (author : Str) (location note : Option Str)
    (acc : Store × NodeAssembled) (f : SlotField) : Store × NodeAssembled :=
  match getSlot acc.2 f with
  | none => acc
  | some cid =>
    match getComponent acc.1 cid with
    | none => acc
    | some comp =>
      let self1 := setSlot acc.2 f none
      let comp1 : NodeComponent := { comp with location := location }
      let st1 := saveComponent acc.1 comp1
      (history_del st1 author (some self1.id) (some comp1.id) none note, self1)

/-- orm.py `NodeAssembled.empty` (lines 214-227): the loop over the six slot
fields followed by `self.save()`, which persists the cleared slots.  The
mutated in-memory node is returned for the caller (`discard_node`) to keep
using. -/
def node_empty (st : Store) (author : Str) (self : NodeAssembled)
    (location note : Option Str) : Store × NodeAssembled :=
  let r := slotFields.foldl (empty_step author location note) (st, self)
  (saveNode r.1 r.2, r.2)

/-- The installed check `if component.node:` of client.py line 547, read as
"some node slot references the component" (the `node` backref the line
names is absent from the schema as written). -/
def isInstalled (st : Store) (cid : Nat) : Bool :=
  st.nodes.any (fun n => slotFields.any (fun f => getSlot n f == some cid))

/-- `node.components()` (orm.py lines 206-212) is non-empty: some component
row's id is referenced by one of the node's slots. -/
def node_components_exist (st : Store) (node : NodeAssembled) : Bool :=
  st.components.any (fun c => slotFields.any (fun f => getSlot node f == some c.id))

/-- client.py `discard_component` (lines 530-556): missing argument echoes
help; a GONE or RMA status fails before anything is written; an installed
component fails unless `--uninstall` was given, in which case
`component.uninstall(location=None, note=note)` runs first; then the status
is set to GONE, saved, and one DEL history row is written. -/
def discard_component (st : Store) (author : Str) (component : Option NodeComponent)
    (uninstallFlag : Bool) (note : Option Str) : Except OpError Store :=
  match component with
  | none => .error .helpExit
  | some component =>
    if component.status = "GONE".toList then
      .error (.conflict ("ERROR: component has already been discarded.".toList))
    else if component.status = "RMA".toList then
      .error (.conflict ("ERROR: component is out for RMA.".toList))
    else
      if isInstalled st component.id then
        if uninstallFlag then
          match uninstall st author component none note with
          | .error e => .error e
          | .ok st1 =>
            let comp1 : NodeComponent := { component with status := "GONE".toList }
            .ok (history_del (saveComponent st1 comp1) author none (some comp1.id) none note)
        else .error (.conflict ("ERROR: component installed in node".toList))
      else
        let comp1 : NodeComponent := { component with status := "GONE".toList }
        .ok (history_del (saveComponent st comp1) author none (some comp1.id) none note)

/-- client.py `discard_node` (lines 489-514): missing argument echoes help;
an already-gone node fails; without `--remove-all` a node that still holds
components fails; with it `node.empty(location, note)` runs first; then
`gone` is set, saved, and one DEL history row referencing only the node is
written. -/
def discard_node (st : Store) (author : Str) (node : Option NodeAssembled)
    (location : Option Str) (removeAll : Bool) (note : Option Str) :
    Except OpError Store :=
  match node with
  | none => .error .helpExit
  | some node =>
    if node.gone then
      .error (.conflict ("ERROR: node has already been discarded.".toList))
    else
      if !removeAll then
        if node_components_exist st node then
          .error (.conflict ("ERROR: node contains components.".toList))
        else
          let node1 : NodeAssembled := { node with gone := true }
          .ok (history_del (saveNode st node1) author (some node1.id) none none note)
      else
        let r := node_empty st author node location note
        let node1 : NodeAssembled := { r.2 with gone := true }
        .ok (history_del (saveNode r.1 node1) author (some node1.id) none none note)

/-- A slot of `self` that resolves to a component row of `st`: the slots
`NodeAssembled.empty` removes a component from. -/
def occupied (st : Store) (self : NodeAssembled) (f : SlotField) : Bool :=
  ((getSlot self f).bind (getComponent st)).isSome

/-! ## Concrete fixtures for witnesses and counterexamples -/

def author0 : Str := "operator@host".toList

def emptyStore : Store := ⟨[], [], [], []⟩

/-- An OK CPU component sitting on a shelf. -/
def cpuComp : NodeComponent :=
  ⟨1, "CPU".toList, none, some ("SER1".toList), "OK".toList, some ("shelf".toList)⟩

/-- A node whose cpu0 slot holds `cpuComp`. -/
def nodeA : NodeAssembled :=
  ⟨1, false, "NODE1".toList, none, none, none, some 1, none, none, none, none, false⟩

def installedStore : Store := ⟨[cpuComp], [nodeA], [], []⟩

/-- The `.ok` payload of an operation, with a fallback for the error case. -/
def getOkStore (d : Store) : Except OpError Store → Store
  | .ok s => s
  | .error _ => d

def createNodeDemo : Store :=
  getOkStore emptyStore (create_node emptyStore author0 (some ("NODE9".toList)) false none none none)

def nicDemo : Store :=
  getOkStore emptyStore (create_nic emptyStore author0 (some ("NIC9".toList)) none none none none)

def compDemo : Store :=
  getOkStore emptyStore
    (create_component emptyStore author0 ("nic".toList) (some ("S2".toList)) none none none
      (some 12) [10, 11])

def uninstallDemo : Store :=
  getOkStore emptyStore (uninstall installedStore author0 cpuComp none none)

def discardDemoStore : Store :=
  getOkStore emptyStore (discard_component installedStore author0 (some cpuComp) true none)

deriving instance DecidableEq for Except

/-! ## Theorems -/

theorem rack_slot_core_shape (u out : Str) (h : rack_slot_core u = some out) :
    ∃ hut rack sep slot, u = [hut, rack, sep, slot] ∧ hut ∈ hutChars ∧
      rack ∈ rackChars ∧ sep_ok hut sep ∧ slot ∈ slotChars ∧
      out = ['c', hut, rack.toUpper, sep_char hut, slot] := by
  match u with
  | [] => simp [rack_slot_core] at h
  | [a] => simp [rack_slot_core] at h
  | [a, b] => simp [rack_slot_core] at h
  | [a, b, c] => simp [rack_slot_core] at h
  | a :: b :: c :: d :: e :: t => simp [rack_slot_core] at h
  | [a, b, c, d] =>
    simp only [rack_slot_core] at h
    split_ifs at h with h1 h2 h3 h4
    exact ⟨a, b, c, d, rfl, h1, h2, h3, h4, (Option.some.injEq _ _).mp h.symm⟩

theorem hut_toLower {c : Char} (h : c ∈ hutChars) : c.toLower = c := by
  simp [hutChars] at h
  rcases h with rfl | rfl | rfl <;> decide

theorem rack_roundtrip {c : Char} (h : c ∈ rackChars) : c.toUpper.toLower = c := by
  simp [rackChars, slotChars] at h
  rcases h with rfl | rfl | rfl | rfl | rfl | rfl | rfl | rfl | rfl | rfl | rfl | rfl | rfl | rfl | rfl <;> decide

theorem slot_toLower {c : Char} (h : c ∈ slotChars) : c.toLower = c := by
  simp [slotChars] at h
  rcases h with rfl | rfl | rfl | rfl | rfl | rfl | rfl | rfl | rfl | rfl <;> decide

theorem sep_char_toLower (hut : Char) : (sep_char hut).toLower = sep_char hut := by
  unfold sep_char; split <;> decide

theorem sep_ok_sep_char (hut : Char) : sep_ok hut (sep_char hut) := by
  by_cases h : hut = 'f' <;> simp [sep_ok, sep_char, h]

theorem valid_rack_slot_idem (s out : Str) (h : valid_rack_slot s = some out) :
    valid_rack_slot out = some out := by
  have hcore : ∃ u, rack_slot_core u = some out := by
    unfold valid_rack_slot at h
    split at h
    · exact absurd h (by simp)
    · exact ⟨_, h⟩
    · exact ⟨_, h⟩
  obtain ⟨u, hu⟩ := hcore
  obtain ⟨hut, rack, sep, slot, -, hh, hr, -, hs, rfl⟩ := rack_slot_core_shape u _ hu
  unfold valid_rack_slot
  simp only [List.map_cons, List.map_nil]
  rw [show 'c'.toLower = 'c' from by decide, hut_toLower hh, rack_roundtrip hr,
    sep_char_toLower, slot_toLower hs]
  show rack_slot_core [hut, rack, sep_char hut, slot] = _
  simp only [rack_slot_core]
  rw [if_pos hh, if_pos hr, if_pos (sep_ok_sep_char hut), if_pos hs]

/-- C2: rack-slot canonicalization (`valid_rack_slot`) is pure and idempotent:
whenever it succeeds, re-canonicalizing its own result returns the same
string; `nag1` canonicalizes to `cnAg1` and `f3n1` to `cf3n1`, while the
inputs `""`, `"cn0g0a"`, `"cn0n0"` and `"cf0g0"` all fail with ValueError. -/
theorem claim_C2 :
    (∀ s out, valid_rack_slot s = some out → valid_rack_slot out = some out) ∧
    valid_rack_slot ("nag1".toList) = some ("cnAg1".toList) ∧
    valid_rack_slot ("f3n1".toList) = some ("cf3n1".toList) ∧
    valid_rack_slot_full (some ("".toList)) false = .valueError ∧
    valid_rack_slot_full (some ("cn0g0a".toList)) false = .valueError ∧
    valid_rack_slot_full (some ("cn0n0".toList)) false = .valueError ∧
    valid_rack_slot_full (some ("cf0g0".toList)) false = .valueError :=
  ⟨valid_rack_slot_idem, by decide, by decide, by decide, by decide, by decide, by decide⟩

/-- C2 witness: idempotence applied at the concrete valid input `nag1`. -/
theorem claim_C2_witness :
    valid_rack_slot ("cnAg1".toList) = some ("cnAg1".toList) :=
  claim_C2.1 ("nag1".toList) ("cnAg1".toList) (by decide)

/-- C10: a `None` input makes `valid_rack_slot` return `None` without raising,
for both values of the `from_cli` flag. -/
theorem claim_C10 : ∀ b : Bool, valid_rack_slot_full none b = .ok none := by
  intro b; rfl

/-! ### History logger helpers -/

theorem history_add_hist (st : Store) (a : Str) (node comp rma : Option Nat)
    (note : Option Str) :
    (history_add st a node comp rma note).history = st.history ++
      [⟨"ADD".toList, node, comp, rma, a, !truthy note,
        if truthy note then note.getD []
        else if node = none then "Created component.".toList
        else if comp = none then "Created node.".toList
        else "Added component to node.".toList⟩] := by
  unfold history_add new_history
  cases h : truthy note <;> simp [h]

theorem history_del_hist (st : Store) (a : Str) (node comp rma : Option Nat)
    (note : Option Str) :
    (history_del st a node comp rma note).history = st.history ++
      [⟨"DEL".toList, node, comp, rma, a, !truthy note,
        if truthy note then note.getD []
        else if node = none then "Retired component.".toList
        else if comp = none then "Retired node.".toList
        else "Removed component from node.".toList⟩] := by
  unfold history_del new_history
  cases h : truthy note <;> simp [h]

theorem history_add_components (st : Store) (a : Str) (node comp rma : Option Nat)
    (note : Option Str) :
    (history_add st a node comp rma note).components = st.components := by
  unfold history_add new_history
  cases truthy note <;> rfl

theorem history_del_components (st : Store) (a : Str) (node comp rma : Option Nat)
    (note : Option Str) :
    (history_del st a node comp rma note).components = st.components := by
  unfold history_del new_history
  cases truthy note <;> rfl

theorem history_del_nodes (st : Store) (a : Str) (node comp rma : Option Nat)
    (note : Option Str) :
    (history_del st a node comp rma note).nodes = st.nodes := by
  unfold history_del new_history
  cases truthy note <;> rfl

theorem saveComponent_history (st : Store) (c : NodeComponent) :
    (saveComponent st c).history = st.history := rfl

theorem saveNode_history (st : Store) (n : NodeAssembled) :
    (saveNode st n).history = st.history := rfl

theorem saveNode_components (st : Store) (n : NodeAssembled) :
    (saveNode st n).components = st.components := rfl

/-! ### Store row-replacement lemmas -/

theorem lookup_map_save_isSome (l : List NodeComponent) (c : NodeComponent) (x : Nat) :
    (lookupComponent (l.map (fun y => if y.id = c.id then c else y)) x).isSome =
      (lookupComponent l x).isSome := by
  induction l with
  | nil => rfl
  | cons hd tl ih =>
    simp only [List.map_cons, lookupComponent]
    by_cases hc : hd.id = c.id
    · rw [if_pos hc]
      by_cases hx : hd.id = x
      · rw [if_pos (by rw [← hc]; exact hx), if_pos hx]
        rfl
      · rw [if_neg (by rw [← hc]; exact hx), if_neg hx]
        exact ih
    · rw [if_neg hc]
      by_cases hx : hd.id = x
      · rw [if_pos hx, if_pos hx]
      · rw [if_neg hx, if_neg hx]
        exact ih

theorem getComponent_save_isSome (st : Store) (c : NodeComponent) (x : Nat) :
    (getComponent (saveComponent st c) x).isSome = (getComponent st x).isSome :=
  lookup_map_save_isSome st.components c x

theorem lookup_map_replace (l : List NodeComponent) (c c' : NodeComponent)
    (hid : c'.id = c.id) (h : lookupComponent l c.id = some c) :
    lookupComponent (l.map (fun y => if y.id = c'.id then c' else y)) c.id = some c' := by
  induction l with
  | nil => simp [lookupComponent] at h
  | cons hd tl ih =>
    simp only [List.map_cons, lookupComponent] at h ⊢
    by_cases hc : hd.id = c.id
    · have h1 : hd.id = c'.id := hc.trans hid.symm
      simp [h1, hid]
    · have h1 : ¬hd.id = c'.id := by rw [hid]; exact hc
      simp only [if_neg h1, if_neg hc] at h ⊢
      exact ih h

theorem getComponent_save_replace (st : Store) (c c' : NodeComponent)
    (hid : c'.id = c.id) (h : getComponent st c.id = some c) :
    getComponent (saveComponent st c') c.id = some c' :=
  lookup_map_replace st.components c c' hid h

theorem setSlot_id (n : NodeAssembled) (f : SlotField) (v : Option Nat) :
    (setSlot n f v).id = n.id := by
  cases f <;> rfl

theorem getSlot_setSlot_ne (n : NodeAssembled) (f f' : SlotField) (v : Option Nat)
    (h : f ≠ f') : getSlot (setSlot n f v) f' = getSlot n f' := by
  cases f <;> cases f' <;> first | rfl | exact absurd rfl h

/-! ### Operation-level history lemmas -/

theorem create_component_hist (st : Store) (a type_ serial : Str)
    (location note model : Option Str) (ipmi : Option Nat) (macs : List Nat) (st' : Store)
    (h : create_component st a type_ (some serial) location note model ipmi macs = .ok st') :
    ∃ r : NodeHistory, st'.history = st.history ++ [r] ∧ r.author = a ∧
      r.operation = "ADD".toList := by
  simp only [create_component] at h
  split at h
  · exact absurd h (by simp)
  · simp only [Except.ok.injEq] at h
    subst h
    exact ⟨_, history_add_hist _ a none (some (st.components.length + 1)) none note, rfl, rfl⟩

theorem create_node_hist (st : Store) (a serial : Str) (frb : Bool)
    (location note slot : Option Str) (st' : Store)
    (h : create_node st a (some serial) frb location note slot = .ok st') :
    ∃ r : NodeHistory, st'.history = st.history ++ [r] ∧ r.author = a ∧
      r.operation = "ADD".toList := by
  simp only [create_node] at h
  split at h
  · exact absurd h (by simp)
  · split at h
    · exact absurd h (by simp)
    · exact absurd h (by simp)
    · split at h
      · exact absurd h (by simp)
      · simp only [Except.ok.injEq] at h
        subst h
        exact ⟨_, history_add_hist _ a (some (st.nodes.length + 1)) none none note, rfl, rfl⟩

theorem uninstall_hist (st : Store) (a : Str) (self : NodeComponent)
    (location note : Option Str) (st' : Store)
    (h : uninstall st a self location note = .ok st') :
    ∃ r : NodeHistory, st'.history = st.history ++ [r] ∧ r.author = a ∧
      r.operation = "DEL".toList := by
  unfold uninstall at h
  split at h
  · exact absurd h (by simp)
  · rename_i node field heq
    simp only [Except.ok.injEq] at h
    subst h
    by_cases hl : truthy location = true
    · rw [if_pos hl]
      exact ⟨_, history_del_hist _ a _ _ none note, rfl, rfl⟩
    · rw [if_neg hl]
      exact ⟨_, history_del_hist _ a _ _ none note, rfl, rfl⟩

theorem uninstall_components_none (st : Store) (a : Str) (self : NodeComponent)
    (note : Option Str) (st' : Store)
    (h : uninstall st a self none note = .ok st') :
    st'.components = st.components := by
  unfold uninstall at h
  split at h
  · exact absurd h (by simp)
  · simp only [Except.ok.injEq] at h
    subst h
    rw [history_del_components]
    rfl

theorem getComponent_history_del (st : Store) (a : Str) (node comp rma : Option Nat)
    (note : Option Str) (x : Nat) :
    getComponent (history_del st a node comp rma note) x = getComponent st x := by
  unfold getComponent
  rw [history_del_components]

theorem empty_step_snd_id (a : Str) (location note : Option Str)
    (acc : Store × NodeAssembled) (f : SlotField) :
    (empty_step a location note acc f).2.id = acc.2.id := by
  unfold empty_step
  split
  · rfl
  · split
    · rfl
    · exact setSlot_id _ _ _

theorem foldl_empty_snd_id (a : Str) (location note : Option Str) :
    ∀ (fields : List SlotField) (acc : Store × NodeAssembled),
      ((fields.foldl (empty_step a location note) acc).2).id = acc.2.id := by
  intro fields
  induction fields with
  | nil => intro acc; rfl
  | cons f rest ih =>
    intro acc
    rw [List.foldl_cons, ih (empty_step a location note acc f), empty_step_snd_id]

theorem occupied_empty_step (a : Str) (location note : Option Str)
    (st : Store) (self : NodeAssembled) (f f' : SlotField) (hne : f ≠ f') :
    occupied (empty_step a location note (st, self) f).1
      (empty_step a location note (st, self) f).2 f' = occupied st self f' := by
  unfold empty_step
  split
  · rfl
  · split
    · rfl
    · unfold occupied
      rw [getSlot_setSlot_ne _ _ _ _ hne]
      cases hp : getSlot (st, self).2 f' with
      | none => rfl
      | some cid' =>
        show (getComponent _ cid').isSome = (getComponent st cid').isSome
        rw [getComponent_history_del]
        exact getComponent_save_isSome st _ cid'

theorem empty_step_hist (a : Str) (location note : Option Str) (st : Store)
    (self : NodeAssembled) (f : SlotField) :
    ∃ rs0 : List NodeHistory,
      (empty_step a location note (st, self) f).1.history = st.history ++ rs0 ∧
      rs0.length = (if occupied st self f then 1 else 0) ∧
      ∀ r ∈ rs0, r.author = a ∧ r.operation = "DEL".toList := by
  cases hs : getSlot self f with
  | none => exact ⟨[], by simp [empty_step, hs], by simp [occupied, hs], by simp⟩
  | some cid =>
    cases hc : getComponent st cid with
    | none => exact ⟨[], by simp [empty_step, hs, hc], by simp [occupied, hs, hc], by simp⟩
    | some comp =>
      have he : (empty_step a location note (st, self) f).1.history = st.history ++
          [⟨"DEL".toList, some (setSlot self f none).id, some comp.id, none, a, !truthy note,
            if truthy note then note.getD []
            else if (some (setSlot self f none).id : Option Nat) = none then
              "Retired component.".toList
            else if (some comp.id : Option Nat) = none then "Retired node.".toList
            else "Removed component from node.".toList⟩] := by
        simp only [empty_step, hs, hc]
        exact history_del_hist _ a _ _ none note
      refine ⟨_, he, ?_, ?_⟩
      · simp [occupied, hs, hc]
      · intro r hr
        rw [List.mem_singleton] at hr
        subst hr
        exact ⟨rfl, rfl⟩

theorem foldl_empty_hist (a : Str) (location note : Option Str) :
    ∀ (fields : List SlotField) (st : Store) (self : NodeAssembled), fields.Nodup →
      ∃ rs : List NodeHistory,
        (fields.foldl (empty_step a location note) (st, self)).1.history = st.history ++ rs ∧
        rs.length = (fields.filter (occupied st self)).length ∧
        ∀ r ∈ rs, r.author = a ∧ r.operation = "DEL".toList := by
  intro fields
  induction fields with
  | nil => intro st self h; exact ⟨[], by simp, by simp, by simp⟩
  | cons f rest ih =>
    intro st self hnd
    have hf : f ∉ rest := (List.nodup_cons.mp hnd).1
    have hnd' : rest.Nodup := (List.nodup_cons.mp hnd).2
    obtain ⟨rs0, e1, e2, e3⟩ := empty_step_hist a location note st self f
    obtain ⟨rs, h1, h2, h3⟩ :=
      ih (empty_step a location note (st, self) f).1
        (empty_step a location note (st, self) f).2 hnd'
    rw [Prod.mk.eta] at h1
    refine ⟨rs0 ++ rs, ?_, ?_, ?_⟩
    · rw [List.foldl_cons, h1, e1, List.append_assoc]
    · rw [List.length_append, e2]
      have hcg : rest.filter (occupied (empty_step a location note (st, self) f).1
          (empty_step a location note (st, self) f).2) = rest.filter (occupied st self) :=
        List.filter_congr (fun x hx =>
          occupied_empty_step a location note st self f x (fun e => hf (e ▸ hx)))
      rw [h2, hcg]
      cases hocc : occupied st self f <;> simp [List.filter_cons, hocc, Nat.add_comm]
    · intro r hr
      rcases List.mem_append.mp hr with hr | hr
      · exact e3 r hr
      · exact h3 r hr

theorem node_empty_hist (st : Store) (a : Str) (self : NodeAssembled)
    (location note : Option Str) :
    ∃ rs : List NodeHistory,
      (node_empty st a self location note).1.history = st.history ++ rs ∧
      rs.length = (slotFields.filter (occupied st self)).length ∧
      ∀ r ∈ rs, r.author = a ∧ r.operation = "DEL".toList := by
  obtain ⟨rs, h1, h2, h3⟩ := foldl_empty_hist a location note slotFields st self (by decide)
  exact ⟨rs, h1, h2, h3⟩

theorem history_add_nodes (st : Store) (a : Str) (node comp rma : Option Nat)
    (note : Option Str) :
    (history_add st a node comp rma note).nodes = st.nodes := by
  unfold history_add new_history
  cases truthy note <;> rfl

theorem discard_component_hist (st : Store) (a : Str) (c : NodeComponent) (flag : Bool)
    (note : Option Str) (st' : Store)
    (h : discard_component st a (some c) flag note = .ok st') :
    if isInstalled st c.id && flag then
      ∃ r1 r2 : NodeHistory, st'.history = st.history ++ [r1, r2] ∧
        r1.author = a ∧ r2.author = a ∧
        r1.operation = "DEL".toList ∧ r2.operation = "DEL".toList
    else
      ∃ r : NodeHistory, st'.history = st.history ++ [r] ∧ r.author = a ∧
        r.operation = "DEL".toList := by
  simp only [discard_component] at h
  split_ifs at h with h1 h2 h3 h4
  · -- installed, flag given: uninstall runs first, then the discard record
    rw [if_pos (by rw [h3, h4]; rfl)]
    split at h
    · exact absurd h (by simp)
    · rename_i st1 hu
      simp only [Except.ok.injEq] at h
      subst h
      obtain ⟨r1, hr1, ha1, ho1⟩ := uninstall_hist st a c none note st1 hu
      have he := history_del_hist (saveComponent st1 { c with status := "GONE".toList }) a
        none (some c.id) none note
      rw [saveComponent_history, hr1, List.append_assoc] at he
      exact ⟨r1, _, he, ha1, rfl, ho1, rfl⟩
  · -- not installed: a single DEL record
    have h3' : isInstalled st c.id = false := by
      revert h3
      cases isInstalled st c.id <;> simp
    rw [if_neg (by rw [h3']; simp)]
    simp only [Except.ok.injEq] at h
    subst h
    exact ⟨_, history_del_hist _ a none (some c.id) none note, rfl, rfl⟩

theorem discard_node_hist (st : Store) (a : Str) (node : NodeAssembled)
    (location : Option Str) (removeAll : Bool) (note : Option Str) (st' : Store)
    (h : discard_node st a (some node) location removeAll note = .ok st') :
    ∃ (rs : List NodeHistory) (r : NodeHistory),
      st'.history = st.history ++ (rs ++ [r]) ∧
      (removeAll = false → rs = []) ∧
      (removeAll = true → rs.length = (slotFields.filter (occupied st node)).length) ∧
      (∀ x ∈ rs, x.author = a ∧ x.operation = "DEL".toList) ∧
      r.author = a ∧ r.operation = "DEL".toList ∧ r.component = none := by
  simp only [discard_node] at h
  split_ifs at h with h1 h2 h3
  · -- removeAll is false and the node is empty: one DEL record for the node
    simp only [Except.ok.injEq] at h
    subst h
    have hra : removeAll = false := by
      cases removeAll
      · rfl
      · exact absurd h2 (by simp)
    have he := history_del_hist (saveNode st { node with gone := true }) a
      (some node.id) none none note
    rw [saveNode_history] at he
    exact ⟨[], _, he, fun _ => rfl, fun hx => absurd hra (by rw [hx]; simp), by simp,
      rfl, rfl, rfl⟩
  · -- removeAll is true: the records of node.empty, then the node's own DEL
    simp only [Except.ok.injEq] at h
    subst h
    have hra : removeAll = true := by
      cases removeAll
      · exact absurd rfl h2
      · rfl
    obtain ⟨rs, e1, e2, e3⟩ := node_empty_hist st a node location note
    have he := history_del_hist (saveNode (node_empty st a node location note).1
        { (node_empty st a node location note).2 with gone := true }) a
      (some (node_empty st a node location note).2.id) none none note
    rw [saveNode_history, e1, List.append_assoc] at he
    exact ⟨rs, _, he, fun hx => absurd hra (by rw [hx]; simp), fun _ => e2, e3, rfl, rfl, rfl⟩

/-! ### Claim theorems -/

/-- C3: evaluation of `macaddr.convert` at the documented inputs.  The
ungrouped, 6-group, 3-group and 4-hexdigit-group forms agree and mixed
separators fail, as the claim states; but the equal 2-group form
`AAAAAA-AAAAAA` (separator at index 6) is REJECTED, because the source
tests `value[7] == separator` (client.py line 77), while the unequal split
`AAAAAAA-AAAAA` (separator at index 7) is accepted — the code contradicts
its own docstring, which lists `AAAAAA-AAAAAA` as a valid example. -/
theorem claim_C3_eval :
    macaddr_convert ("AAAAAAAAAAAA".toList) = .ok 187649984473770 ∧
    macaddr_convert ("AA:AA:AA:AA:AA:AA".toList) = .ok 187649984473770 ∧
    macaddr_convert ("aa-aa-aa-aa-aa-aa".toList) = .ok 187649984473770 ∧
    macaddr_convert ("AAA.AAA.AAA.AAA".toList) = .ok 187649984473770 ∧
    macaddr_convert ("AAAA.AAAA.AAAA".toList) = .ok 187649984473770 ∧
    macaddr_convert ("AA:AA-AA:AA:AA:AA".toList) = .fail ∧
    macaddr_convert ("AAAAAA-AAAAAA".toList) = .fail ∧
    macaddr_convert ("AAAAAAA-AAAAA".toList) = .ok 187649984473770 := by
  refine ⟨?_, ?_, ?_, ?_, ?_, ?_, ?_, ?_⟩ <;> decide

/-- C4 counterexample: with the caller's note empty, an ADD record whose
assembly reference is absent and whose component reference is present gets
the note "Created component.", not "Created node." (and the DEL analogue
gets "Retired component.", not "Retired node."): history.add/del_ branch on
the node reference first (history.py lines 48-53, 65-70), so the two rows
of the section-6 table with assembly null and component present are wrong. -/
theorem claim_C4_counterexample :
    (history_add emptyStore author0 none (some 1) none none).history =
      [⟨"ADD".toList, none, some 1, none, author0, true, "Created component.".toList⟩] ∧
    (history_del emptyStore author0 none (some 1) none none).history =
      [⟨"DEL".toList, none, some 1, none, author0, true, "Retired component.".toList⟩] ∧
    "Created component.".toList ≠ "Created node.".toList ∧
    "Retired component.".toList ≠ "Retired node.".toList := by
  refine ⟨?_, ?_, ?_, ?_⟩ <;> decide

/-- C4 amended: when the caller's note is falsy the History Logger appends
one record whose note is selected by the operation and the references,
testing the assembly reference first: ADD with assembly absent gives
"Created component." (whatever the component reference), ADD with assembly
present and component absent gives "Created node.", ADD with both present
gives "Added component to node."; DEL analogously gives
"Retired component." / "Retired node." / "Removed component from node.";
`autonote` is true exactly when the note was synthesized, and a truthy
caller note is stored as given with `autonote` false. -/
theorem claim_C4_amended :
    ∀ (st : Store) (a : Str) (node comp rma : Option Nat) (note : Option Str),
      (history_add st a node comp rma note).history = st.history ++
        [⟨"ADD".toList, node, comp, rma, a, !truthy note,
          if truthy note then note.getD []
          else if node = none then "Created component.".toList
          else if comp = none then "Created node.".toList
          else "Added component to node.".toList⟩] ∧
      (history_del st a node comp rma note).history = st.history ++
        [⟨"DEL".toList, node, comp, rma, a, !truthy note,
          if truthy note then note.getD []
          else if node = none then "Retired component.".toList
          else if comp = none then "Retired node.".toList
          else "Removed component from node.".toList⟩] :=
  fun st a node comp rma note =>
    ⟨history_add_hist st a node comp rma note, history_del_hist st a node comp rma note⟩

/-- C5: the `create_component` handler itself stores the uppercased supplied
kind with status OK, one MAC row per address with NIC roles by position and
the IPMI address with role IPMI, and one ADD record with the default note
"Created component." (shown here for kind "nic" with two MACs and an IPMI
address); but the `create nic` command (`create_nic`) passes the literal
"mb" (client.py line 460), so the component it creates has type "MB", not
"NIC", contradicting its own docstring "Create a new NIC". -/
theorem claim_C5_eval :
    compDemo.components = [⟨1, "NIC".toList, none, some ("S2".toList), "OK".toList, none⟩] ∧
    compDemo.macs = [⟨10, 1, "NIC0".toList⟩, ⟨11, 1, "NIC1".toList⟩, ⟨12, 1, "IPMI".toList⟩] ∧
    compDemo.history =
      [⟨"ADD".toList, none, some 1, none, author0, true, "Created component.".toList⟩] ∧
    nicDemo.components = [⟨1, "MB".toList, none, some ("NIC9".toList), "OK".toList, none⟩] ∧
    (∀ c ∈ nicDemo.components, c.type ≠ "NIC".toList) ∧
    nicDemo.history =
      [⟨"ADD".toList, none, some 1, none, author0, true, "Created component.".toList⟩] := by
  refine ⟨?_, ?_, ?_, ?_, ?_, ?_⟩ <;> decide

/-- C6: evaluation of `NodeComponent.uninstall` on a CPU installed in a
node's cpu0 slot, with newLocation null.  The call succeeds and writes the
DEL record "Removed component from node.", and when the component is in no
node it raises the not-installed error; but the persisted store still shows
the node's cpu0 slot occupied — the source saves the node BEFORE clearing
the slot field and never saves it after (orm.py lines 78-80) — and the
component row is unchanged, so the location was not set to the null
newLocation (`if location:` guard, orm.py line 81). -/
theorem claim_C6_eval :
    uninstall installedStore author0 cpuComp none none = .ok uninstallDemo ∧
    nodeA.cpu0 = some cpuComp.id ∧
    uninstallDemo.nodes = [nodeA] ∧
    uninstallDemo.components = [cpuComp] ∧
    uninstallDemo.history =
      [⟨"DEL".toList, some 1, some 1, none, author0, true,
        "Removed component from node.".toList⟩] ∧
    uninstall emptyStore author0 cpuComp none none =
      .error (.notInstalled ("component not installed in node.".toList)) := by
  refine ⟨?_, ?_, ?_, ?_, ?_, ?_⟩ <;> decide

/-- C1 counterexample: a successful mutating operation other than
discardAssembly(removeAll=true) that appends TWO history records:
`discard_component` with forceUninstall on an installed component performs
`uninstall` (which writes one DEL record) and then writes its own DEL
record.  Starting from a store with an empty history, the call succeeds and
leaves two records. -/
theorem claim_C1_counterexample :
    (discard_component installedStore author0 (some cpuComp) true none).toOption.map
      (fun s => s.history.length) = some 2 ∧
    installedStore.history.length = 0 := by
  refine ⟨?_, ?_⟩ <;> decide

/-- C1 amended: every successful mutating operation appends its history
records at the end of the log, leaving all prior records unmodified, and
every appended record carries the author: createComponent, createAssembly
and uninstall append exactly one record; discardComponent appends one
record, except that with forceUninstall on an installed component it
appends the uninstall's DEL record plus its own DEL record (two);
discardAssembly appends one DEL record per removed component (zero when
removeAll is false) plus one DEL record for the assembly itself. -/
theorem claim_C1_amended :
    (∀ st a type_ serial location note model ipmi macs st',
      create_component st a type_ (some serial) location note model ipmi macs = .ok st' →
      ∃ r : NodeHistory, st'.history = st.history ++ [r] ∧ r.author = a ∧
        r.operation = "ADD".toList) ∧
    (∀ st a serial frb location note slot st',
      create_node st a (some serial) frb location note slot = .ok st' →
      ∃ r : NodeHistory, st'.history = st.history ++ [r] ∧ r.author = a ∧
        r.operation = "ADD".toList) ∧
    (∀ st a self location note st',
      uninstall st a self location note = .ok st' →
      ∃ r : NodeHistory, st'.history = st.history ++ [r] ∧ r.author = a ∧
        r.operation = "DEL".toList) ∧
    (∀ st a c flag note st',
      discard_component st a (some c) flag note = .ok st' →
      if isInstalled st c.id && flag then
        ∃ r1 r2 : NodeHistory, st'.history = st.history ++ [r1, r2] ∧
          r1.author = a ∧ r2.author = a ∧
          r1.operation = "DEL".toList ∧ r2.operation = "DEL".toList
      else
        ∃ r : NodeHistory, st'.history = st.history ++ [r] ∧ r.author = a ∧
          r.operation = "DEL".toList) ∧
    (∀ st a node location removeAll note st',
      discard_node st a (some node) location removeAll note = .ok st' →
      ∃ (rs : List NodeHistory) (r : NodeHistory),
        st'.history = st.history ++ (rs ++ [r]) ∧
        (removeAll = false → rs = []) ∧
        (removeAll = true → rs.length = (slotFields.filter (occupied st node)).length) ∧
        (∀ x ∈ rs, x.author = a ∧ x.operation = "DEL".toList) ∧
        r.author = a ∧ r.operation = "DEL".toList ∧ r.component = none) :=
  ⟨create_component_hist, create_node_hist, uninstall_hist, discard_component_hist,
    discard_node_hist⟩

/-- C1 witness: the createAssembly conjunct applied to a concrete store. -/
theorem claim_C1_witness :
    ∃ r : NodeHistory, createNodeDemo.history = emptyStore.history ++ [r] ∧
      r.author = author0 ∧ r.operation = "ADD".toList :=
  claim_C1_amended.2.1 emptyStore author0 ("NODE9".toList) false none none none
    createNodeDemo (by decide)

/-- C7: `discard_component` fails before writing anything when the status is
GONE ("already discarded") or RMA ("out for RMA"), or when the component is
installed and forceUninstall is false; and after any successful discard the
stored component has status GONE, so a second discard of it fails with the
already-discarded Conflict (the error is returned before any store write in
the model, mirroring that the source checks status first). -/
theorem claim_C7 :
    (∀ st a (c : NodeComponent) flag note, c.status = "GONE".toList →
      discard_component st a (some c) flag note =
        .error (.conflict ("ERROR: component has already been discarded.".toList))) ∧
    (∀ st a (c : NodeComponent) flag note, c.status ≠ "GONE".toList →
      c.status = "RMA".toList →
      discard_component st a (some c) flag note =
        .error (.conflict ("ERROR: component is out for RMA.".toList))) ∧
    (∀ st a (c : NodeComponent) note, c.status ≠ "GONE".toList →
      c.status ≠ "RMA".toList → isInstalled st c.id = true →
      discard_component st a (some c) false note =
        .error (.conflict ("ERROR: component installed in node".toList))) ∧
    (∀ st a (c : NodeComponent) flag note st', getComponent st c.id = some c →
      discard_component st a (some c) flag note = .ok st' →
      ∃ c', getComponent st' c.id = some c' ∧
        ∀ a' flag' note', discard_component st' a' (some c') flag' note' =
          .error (.conflict ("ERROR: component has already been discarded.".toList))) := by
  refine ⟨?_, ?_, ?_, ?_⟩
  · intro st a c flag note h
    simp only [discard_component]
    rw [if_pos h]
  · intro st a c flag note h1 h2
    simp only [discard_component]
    rw [if_neg h1, if_pos h2]
  · intro st a c note h1 h2 h3
    simp only [discard_component]
    rw [if_neg h1, if_neg h2, if_pos h3]
    rfl
  · intro st a c flag note st' hget h
    simp only [discard_component] at h
    split_ifs at h with h1 h2 h3 h4
    · split at h
      · exact absurd h (by simp)
      · rename_i st1 hu
        simp only [Except.ok.injEq] at h
        subst h
        have hcomp : getComponent st1 c.id = some c := by
          have hcu := uninstall_components_none st a c note st1 hu
          unfold getComponent
          rw [hcu]
          exact hget
        have hrep := getComponent_save_replace st1 c { c with status := "GONE".toList } rfl hcomp
        refine ⟨{ c with status := "GONE".toList }, ?_, ?_⟩
        · rw [getComponent_history_del]
          exact hrep
        · intro a' flag' note'
          rfl
    · simp only [Except.ok.injEq] at h
      subst h
      have hrep := getComponent_save_replace st c { c with status := "GONE".toList } rfl hget
      refine ⟨{ c with status := "GONE".toList }, ?_, ?_⟩
      · rw [getComponent_history_del]
        exact hrep
      · intro a' flag' note'
        rfl

/-- C7 witness: discarding the installed demo CPU (with forceUninstall)
succeeds, and discarding the stored result again is the already-discarded
Conflict for every author, flag and note. -/
theorem claim_C7_witness :
    ∃ c', getComponent discardDemoStore cpuComp.id = some c' ∧
      ∀ a' flag' note', discard_component discardDemoStore a' (some c') flag' note' =
        .error (.conflict ("ERROR: component has already been discarded.".toList)) :=
  claim_C7.2.2.2 installedStore author0 cpuComp true none discardDemoStore
    (by decide) (by decide)

/-- C8 counterexample: a token that is no record number and matches no
stored serial makes `node_from_userid` RETURN None (util.py line 43) rather
than fail, when `from_cli` is false. -/
theorem claim_C8_counterexample :
    node_from_userid emptyStore (some ("widget".toList)) false = .ok none := by
  decide

/-- C8 amended: on a token that is not a record number and matches no stored
serial, component resolution always fails (ctx.fail "COMPONENT not found."
from the CLI, a re-raised DoesNotExist otherwise), while node resolution
fails only from the CLI ("NODE not found.") and returns None otherwise; and
both resolvers try the record-number prefix first: a token starting "N#"
whose digits do not parse raises, even when some node's serial equals the
token, so serial lookup is only reached when the prefix is absent. -/
theorem claim_C8_amended :
    (∀ st (s : Str), ("N#".toList).isPrefixOf s = false →
      st.nodes.find? (fun n => n.serial == s) = none →
      node_from_userid st (some s) true = .cliFail ("NODE not found.".toList) ∧
      node_from_userid st (some s) false = .ok none) ∧
    (∀ st (s : Str), ("C#".toList).isPrefixOf s = false →
      st.components.find? (fun c => c.serial == some s && c.type != ("slot".toList)) = none →
      component_from_userid st (some s) true = .cliFail ("COMPONENT not found.".toList) ∧
      component_from_userid st (some s) false = .exn) ∧
    (∀ st (s : Str) (fc : Bool), ("N#".toList).isPrefixOf s = true →
      decParseAll (s.drop 2) = none →
      node_from_userid st (some s) fc = .exn) := by
  refine ⟨?_, ?_, ?_⟩
  · intro st s h1 h2
    constructor <;>
      (simp only [node_from_userid]
       rw [h1]
       simp only [Bool.false_eq_true, if_false]
       rw [h2]
       try rfl)
  · intro st s h1 h2
    constructor <;>
      (simp only [component_from_userid]
       rw [h1]
       simp only [Bool.false_eq_true, if_false]
       rw [h2]
       try rfl)
  · intro st s fc h1 h2
    simp only [node_from_userid]
    rw [h1]
    simp only [if_true]
    rw [h2]

/-- C8 witness: the node-resolution conjunct at a concrete token and store. -/
theorem claim_C8_witness :
    node_from_userid emptyStore (some ("widget".toList)) true =
      .cliFail ("NODE not found.".toList) ∧
    node_from_userid emptyStore (some ("widget".toList)) false = .ok none :=
  claim_C8_amended.1 emptyStore ("widget".toList) (by decide) (by decide)

/-- C9 counterexample: a call with at most one of location/rackSlot supplied
(location is None) that does NOT succeed: a malformed rack slot fails with
the Invalid-rack-slot Conflict. -/
theorem claim_C9_counterexample :
    create_node emptyStore author0 (some ("N1".toList)) false none none
      (some ("cn0n0".toList)) =
      .error (.conflict ("Invalid rack slot designation.".toList)) := by
  decide

/-- C9 amended: `create_node` fails with the Conflict "Cannot specify both
--location and --slot" when both are supplied (truthy); when at most one is
supplied, the rack slot (if given) is well-formed and the serial is not
already taken, it succeeds, stores the node with the canonicalized rack
slot, and appends exactly one ADD history record whose note defaults to
"Created node." when the caller gave none. -/
theorem claim_C9_amended :
    (∀ st a serial frb (location note slot : Option Str),
      truthy location = true → truthy slot = true →
      create_node st a (some serial) frb location note slot =
        .error (.conflict ("Cannot specify both --location and --slot".toList))) ∧
    (∀ st a serial frb (location note slot rs : Option Str),
      (truthy location && truthy slot) = false →
      valid_rack_slot_full slot true = .ok rs →
      st.nodes.any (fun n => n.serial == serial) = false →
      ∃ st', create_node st a (some serial) frb location note slot = .ok st' ∧
        (∃ n, n ∈ st'.nodes ∧ n.serial = serial ∧ n.rack_slot = rs ∧ n.gone = false) ∧
        st'.history = st.history ++
          [⟨"ADD".toList, some (st.nodes.length + 1), none, none, a, !truthy note,
            if truthy note then note.getD [] else "Created node.".toList⟩]) := by
  refine ⟨?_, ?_⟩
  · intro st a serial frb location note slot h1 h2
    simp only [create_node]
    rw [h1, h2]
    rfl
  · intro st a serial frb location note slot rs hb hv hf
    have hrun : create_node st a (some serial) frb location note slot =
        .ok (history_add
          { st with nodes := st.nodes ++
            [⟨st.nodes.length + 1, frb, serial, rs, location,
              none, none, none, none, none, none, false⟩] }
          a (some (st.nodes.length + 1)) none none note) := by
      simp only [create_node]
      rw [hb, hv, hf]
      rfl
    refine ⟨_, hrun, ⟨⟨st.nodes.length + 1, frb, serial, rs, location,
        none, none, none, none, none, none, false⟩, ?_, rfl, rfl, rfl⟩, ?_⟩
    · show _ ∈ (history_add _ _ _ _ _ _).nodes
      rw [history_add_nodes]
      exact List.mem_append_right _ (List.mem_singleton.mpr rfl)
    · rw [history_add_hist]
      rfl

/-- C9 witness: the success conjunct at a concrete store: serial "N1" with
rack slot "nag1" canonicalized to "cnAg1". -/
theorem claim_C9_witness :
    ∃ st', create_node emptyStore author0 (some ("N1".toList)) false none none
        (some ("nag1".toList)) = .ok st' ∧
      (∃ n, n ∈ st'.nodes ∧ n.serial = "N1".toList ∧
        n.rack_slot = some ("cnAg1".toList) ∧ n.gone = false) ∧
      st'.history = emptyStore.history ++
        [⟨"ADD".toList, some (emptyStore.nodes.length + 1), none, none, author0,
          !truthy (none : Option Str),
          if truthy (none : Option Str) then (none : Option Str).getD []
          else "Created node.".toList⟩] :=
  claim_C9_amended.2 emptyStore author0 ("N1".toList) false none none
    (some ("nag1".toList)) (some ("cnAg1".toList)) (by decide) (by decide) (by decide)
